import Mathlib

/-!
Verification of the playlist queue-generation engine
(`backend/app/services/algorithm.py` and `backend/app/routers/player.py`).

The Python source is shallowly embedded: timestamps are rational numbers of
seconds, `datetime` subtraction becomes rational subtraction, Python floats
are modelled exactly as rationals, the per-candidate `random.uniform(0.8, 1.2)`
draw is an explicit function parameter `r : Nat → ℚ`, and the final
`random.shuffle` is an explicit function parameter constrained to be a
permutation.  Database rows become Lean structures and lists.
-/

/-- `Song` row: the catalog track (fields used by the engine). -/
structure Song where
  video_id : String
  artist : String
  artist_id : Option String
  genres : List String
deriving DecidableEq, Repr

/-- `UserSong` row: the listener × track affinity record (fields used by the engine).
`last_played` is a timestamp in seconds (`none` = never played); `feedback` is
`some "like"`, `some "dislike"` or absent; `song` is the joined catalog row. -/
structure UserSong where
  video_id : String
  song : Option Song
  feedback : Option String
  last_played : Option ℚ
  play_count : Option Nat
deriving DecidableEq, Repr

/-- `PlaylistQueue` row (fields used by the engine). -/
structure QueueEntry where
  video_id : String
  position : ℤ
  played : Bool
deriving DecidableEq, Repr

/-- The per-listener slice of the database that the engine reads and writes. -/
structure DBState where
  queue : List QueueEntry
  userSongs : List UserSong
deriving DecidableEq, Repr

/-- Algorithm settings (`config.py`): defaults are `discovery_ratio = 0.25`,
`min_artist_gap = 5`, `max_genre_ratio = 0.4`. -/
structure AlgoConfig where
  discoveryRatio : ℚ
  minArtistGap : Nat
  maxGenreRatio : ℚ
deriving DecidableEq, Repr

/-- The default settings from `config.py`. -/
def defaultConfig : AlgoConfig :=
  { discoveryRatio := 1/4, minArtistGap := 5, maxGenreRatio := 2/5 }

/-- Python `song.artist_id or song.artist`: the stable artist id when it is
present and non-empty (Python `or` falls through on `None` and `""`),
otherwise the display name.  Used at `algorithm.py:270` and `:335`. -/
def artistKey (s : Song) : String :=
  match s.artist_id with
  | none => s.artist
  | some a => if a = "" then s.artist else a

/-- Python truthiness test `song.play_count and song.play_count >= 5`
(`algorithm.py:227`). -/
def playCountBonus (s : UserSong) : Bool :=
  match s.play_count with
  | none => false
  | some pc => pc ≠ 0 && 5 ≤ pc

/-- `days_since_played` (`algorithm.py:217-220`): `(now - last_played)` in days,
`none` standing for the Python `float('inf')` of a never-played track. -/
def daysSincePlayed? (now : ℚ) (s : UserSong) : Option ℚ :=
  s.last_played.map (fun lp => (now - lp) / 86400)

/-- The rediscovery-bonus test `days_since_played > 30` (`algorithm.py:223`),
on the optional day count (`none` = infinity, so the test holds). -/
def scoringRediscoveryD : Option ℚ → Bool
  | none => true
  | some d => 30 < d

/-- The scoring rediscovery predicate as a function of the affinity record. -/
def scoringRediscovery (now : ℚ) (s : UserSong) : Bool :=
  scoringRediscoveryD (daysSincePlayed? now s)

/-- The multiplicative base of the score (`algorithm.py:208-228`): like boost
×1.5, rediscovery bonus ×1.3, play-count boost ×1.1. -/
def baseScore (s : UserSong) (d? : Option ℚ) : ℚ :=
  let b1 : ℚ := 1
  let b2 := if s.feedback = some "like" then b1 * 1.5 else b1
  let b3 := if scoringRediscoveryD d? then b2 * 1.3 else b2
  if playCountBonus s then b3 * 1.1 else b3

/-- The recency penalty (`algorithm.py:230-238`): 0.1 for plays within a day,
`max 0.1 (1 - 1/d)` for `d < 7` days, otherwise 1 (also for never played). -/
def recencyPenalty : Option ℚ → ℚ
  | none => 1
  | some d => if d < 7 then (if d < 1 then 0.1 else max 0.1 (1 - 1/d)) else 1

/-- `PlaylistAlgorithm._calculate_score` (`algorithm.py:184-245`): 0 for a
disliked track, otherwise `base * penalty * randomness` where `r` is the
value drawn by `random.uniform(0.8, 1.2)` for this candidate. -/
def calculateScore (s : UserSong) (now : ℚ) (r : ℚ) : ℚ :=
  if s.feedback = some "dislike" then 0
  else baseScore s (daysSincePlayed? now s) * recencyPenalty (daysSincePlayed? now s) * r

/-- The scoring loop of `generate_queue` (`algorithm.py:76-80`): score every
candidate, drawing the `i`-th random multiplier `r i` for the `i`-th
candidate, and keep those with a strictly positive score. -/
def scoredCandidates (now : ℚ) (r : Nat → ℚ) (candidates : List UserSong) :
    List (UserSong × ℚ) :=
  (candidates.enum.map (fun p => (p.2, calculateScore p.2 now (r p.1)))).filter
    (fun p => 0 < p.2)

/-- Python `timedelta.days`: the floor of the total seconds over 86400. -/
def timedeltaDays (sec : ℚ) : ℤ := ⌊sec / 86400⌋

/-- The discovery-pool test of `_select_diverse_songs` (`algorithm.py:313-319`):
never played, or `(now - last_played).days > 30` using the integer `.days`
attribute of the Python `timedelta`. -/
def isDiscoveryCand (now : ℚ) (s : UserSong) : Bool :=
  match s.last_played with
  | none => true
  | some lp => 30 < timedeltaDays (now - lp)

/-- `genre_counts[genre] += 1` over a list of genre tags
(`algorithm.py:345-346` and `:380-381`). -/
def addGenres (gc : String → Nat) (genres : List String) : String → Nat :=
  genres.foldl (fun acc g => fun x => if x = g then acc x + 1 else acc x) gc

/-- Add a candidate's genre tags to the histogram, as done after an admission
(`algorithm.py:374-381`): a candidate without a joined song adds nothing. -/
def addCandGenres (gc : String → Nat) (c : UserSong) : String → Nat :=
  match c.song with
  | none => gc
  | some sg => addGenres gc sg.genres

/-- Genre histogram over a list of admitted candidates, in order. -/
def gcAfter (gc : String → Nat) (l : List UserSong) : String → Nat :=
  l.foldl addCandGenres gc

/-- The recent-artist list built from the recent plays
(`algorithm.py:332-335`): entries lacking a joined song are skipped. -/
def recentArtistsOf (recentSongs : List UserSong) : List String :=
  recentSongs.filterMap (fun us => us.song.map artistKey)

/-- The genre histogram seeded from the recent plays (`algorithm.py:338-346`). -/
def seedGenreCounts (recentSongs : List UserSong) : String → Nat :=
  gcAfter (fun _ => 0) recentSongs

/-- `PlaylistAlgorithm._apply_diversity_constraints` (`algorithm.py:247-286`):
reject a candidate without a joined song; reject when its artist key occurs in
the first `min_artist_gap` entries of the artist list; reject when the window
is non-empty and some genre tag of the candidate already holds at least
`max_genre_ratio` of the window. -/
def applyDiversityConstraints (cfg : AlgoConfig) (candidate : UserSong)
    (recentArtists : List String) (genreCounts : String → Nat)
    (totalInWindow : Nat) : Bool :=
  match candidate.song with
  | none => false
  | some song =>
    if artistKey song ∈ recentArtists.take cfg.minArtistGap then false
    else if 0 < totalInWindow then
      !(song.genres.any (fun g =>
        cfg.maxGenreRatio ≤ (genreCounts g : ℚ) / (totalInWindow : ℚ)))
    else true

/-- The inner helper `select_from_pool` of `_select_diverse_songs`
(`algorithm.py:352-383`).  `recentArtists` and `outerLen` (the length of the
enclosing `selected` list, constant during one pass) are fixed for the pass;
the per-pass accumulator is `result`; `vids` (the `selected_video_ids` set)
and `gc` (the genre histogram) are threaded across passes.  Returns the
admitted list, the grown video-id set and the grown histogram. -/
def selectFromPool (cfg : AlgoConfig) (recentArtists : List String)
    (outerLen : Nat) :
    List (UserSong × ℚ) → Nat → List UserSong → List String → (String → Nat) →
    List UserSong × List String × (String → Nat)
  | [], _, result, vids, gc => (result, vids, gc)
  | (c, _) :: rest, target, result, vids, gc =>
    if target ≤ result.length then (result, vids, gc)
    else if c.video_id ∈ vids then
      selectFromPool cfg recentArtists outerLen rest target result vids gc
    else if applyDiversityConstraints cfg c
        (recentArtists ++ result.filterMap (fun s => s.song.map artistKey))
        gc (recentArtists.length + outerLen) then
      selectFromPool cfg recentArtists outerLen rest target
        (result ++ [c]) (c.video_id :: vids) (addCandGenres gc c)
    else
      selectFromPool cfg recentArtists outerLen rest target result vids gc

/-- Modelled from the claim's words (C3), for comparison with `selectFromPool`:
identical except that `window_total` counts the recent-play window plus every
track admitted so far, i.e. the denominator also grows with each admission of
the current pass (`recentArtists.length + outerLen + result.length`). -/
def selectFromPoolClaimWindow (cfg : AlgoConfig) (recentArtists : List String)
    (outerLen : Nat) :
    List (UserSong × ℚ) → Nat → List UserSong → List String → (String → Nat) →
    List UserSong × List String × (String → Nat)
  | [], _, result, vids, gc => (result, vids, gc)
  | (c, _) :: rest, target, result, vids, gc =>
    if target ≤ result.length then (result, vids, gc)
    else if c.video_id ∈ vids then
      selectFromPoolClaimWindow cfg recentArtists outerLen rest target result vids gc
    else if applyDiversityConstraints cfg c
        (recentArtists ++ result.filterMap (fun s => s.song.map artistKey))
        gc (recentArtists.length + outerLen + result.length) then
      selectFromPoolClaimWindow cfg recentArtists outerLen rest target
        (result ++ [c]) (c.video_id :: vids) (addCandGenres gc c)
    else
      selectFromPoolClaimWindow cfg recentArtists outerLen rest target result vids gc

/-- Python `int(count * discovery_ratio)` (`algorithm.py:328`): truncation
toward zero. -/
def pyTrunc (q : ℚ) : ℤ := if q < 0 then -((-q).floor) else q.floor

/-- Stable insertion into a descending-by-score list: the new element goes in
front of the first element whose score does not exceed it, so earlier-listed
elements stay in front of later equal-scored ones. -/
def insertDesc (x : UserSong × ℚ) : List (UserSong × ℚ) → List (UserSong × ℚ)
  | [] => [x]
  | y :: ys => if y.2 ≤ x.2 then x :: y :: ys else y :: insertDesc x ys

/-- Descending stable sort by score, Python's
`sort(key=lambda x: x[1], reverse=True)` (`algorithm.py:324-325`).  A stable
descending sort is unique, so insertion sort (structurally recursive, hence
kernel-computable) reproduces CPython's stable sort exactly. -/
def sortByScoreDesc (l : List (UserSong × ℚ)) : List (UserSong × ℚ) :=
  l.foldr insertDesc []

/-- `target_discoveries = int(count * discovery_ratio)` (`algorithm.py:328`). -/
def targetDiscoveries (cfg : AlgoConfig) (count : Nat) : Nat :=
  (pyTrunc ((count : ℚ) * cfg.discoveryRatio)).toNat

/-- The discovery pool (`algorithm.py:308-324`): scored candidates that are
never played or not played in more than 30 integer days, sorted descending. -/
def discoveryPool (now : ℚ) (scored : List (UserSong × ℚ)) :
    List (UserSong × ℚ) :=
  sortByScoreDesc (scored.partition (fun p => isDiscoveryCand now p.1)).1

/-- The familiar pool (`algorithm.py:308-325`): the remaining scored
candidates, sorted descending. -/
def familiarPool (now : ℚ) (scored : List (UserSong × ℚ)) :
    List (UserSong × ℚ) :=
  sortByScoreDesc (scored.partition (fun p => isDiscoveryCand now p.1)).2

/-- Pass 1 (`algorithm.py:386`): fill from the discovery pool to
`target_discoveries`, starting from the seeded state, with
`len(selected) = 0`. -/
def passOne (cfg : AlgoConfig) (now : ℚ) (scored : List (UserSong × ℚ))
    (recentSongs : List UserSong) (count : Nat) :
    List UserSong × List String × (String → Nat) :=
  selectFromPool cfg (recentArtistsOf recentSongs) 0 (discoveryPool now scored)
    (targetDiscoveries cfg count) [] [] (seedGenreCounts recentSongs)

/-- Pass 2 (`algorithm.py:390`): fill from the familiar pool to
`count - target_discoveries`, continuing with the video-id set and genre
histogram left by pass 1, with `len(selected)` now the pass-1 yield. -/
def passTwo (cfg : AlgoConfig) (now : ℚ) (scored : List (UserSong × ℚ))
    (recentSongs : List UserSong) (count : Nat) :
    List UserSong × List String × (String → Nat) :=
  selectFromPool cfg (recentArtistsOf recentSongs)
    (passOne cfg now scored recentSongs count).1.length
    (familiarPool now scored) (count - targetDiscoveries cfg count) []
    (passOne cfg now scored recentSongs count).2.1
    (passOne cfg now scored recentSongs count).2.2

/-- The shortfall pool (`algorithm.py:395-396`): scored candidates not yet
admitted, sorted descending. -/
def fillPool (cfg : AlgoConfig) (now : ℚ) (scored : List (UserSong × ℚ))
    (recentSongs : List UserSong) (count : Nat) : List (UserSong × ℚ) :=
  sortByScoreDesc (scored.filter (fun p =>
    decide (p.1.video_id ∉ (passTwo cfg now scored recentSongs count).2.1)))

/-- Pass 3 (`algorithm.py:394-397`): fill the shortfall from the remaining
candidates, continuing the threaded state, with `len(selected)` now the
combined yield of passes 1 and 2. -/
def passThree (cfg : AlgoConfig) (now : ℚ) (scored : List (UserSong × ℚ))
    (recentSongs : List UserSong) (count : Nat) :
    List UserSong × List String × (String → Nat) :=
  selectFromPool cfg (recentArtistsOf recentSongs)
    ((passOne cfg now scored recentSongs count).1 ++
      (passTwo cfg now scored recentSongs count).1).length
    (fillPool cfg now scored recentSongs count)
    (count - ((passOne cfg now scored recentSongs count).1 ++
      (passTwo cfg now scored recentSongs count).1).length) []
    (passTwo cfg now scored recentSongs count).2.1
    (passTwo cfg now scored recentSongs count).2.2

/-- The three admission passes of `_select_diverse_songs`
(`algorithm.py:308-398`), before the final shuffle: the pass-3 list is only
produced when passes 1 and 2 fall short of `count`
(`algorithm.py:394`). -/
def selectAdmittedParts (cfg : AlgoConfig) (now : ℚ)
    (scored : List (UserSong × ℚ)) (recentSongs : List UserSong)
    (count : Nat) : List UserSong × List UserSong × List UserSong :=
  if ((passOne cfg now scored recentSongs count).1 ++
      (passTwo cfg now scored recentSongs count).1).length < count then
    ((passOne cfg now scored recentSongs count).1,
     (passTwo cfg now scored recentSongs count).1,
     (passThree cfg now scored recentSongs count).1)
  else
    ((passOne cfg now scored recentSongs count).1,
     (passTwo cfg now scored recentSongs count).1, [])

/-- The full admission-order output of `_select_diverse_songs` before the
final `random.shuffle` (`algorithm.py:385-398`). -/
def selectAdmitted (cfg : AlgoConfig) (now : ℚ) (scored : List (UserSong × ℚ))
    (recentSongs : List UserSong) (count : Nat) : List UserSong :=
  let p := selectAdmittedParts cfg now scored recentSongs count
  p.1 ++ p.2.1 ++ p.2.2

/-- Modelled from the claim's words (C3): the admission passes run with the
growing `window_total` of `selectFromPoolClaimWindow` in place of the
source's fixed per-pass denominator. -/
def selectAdmittedClaimWindow (cfg : AlgoConfig) (now : ℚ)
    (scored : List (UserSong × ℚ)) (recentSongs : List UserSong)
    (count : Nat) : List UserSong :=
  let parts := scored.partition (fun p => isDiscoveryCand now p.1)
  let discoveries := sortByScoreDesc parts.1
  let familiar := sortByScoreDesc parts.2
  let targetD := (pyTrunc ((count : ℚ) * cfg.discoveryRatio)).toNat
  let targetF := count - targetD
  let recentArtists := recentArtistsOf recentSongs
  let gc0 := seedGenreCounts recentSongs
  let r1 := selectFromPoolClaimWindow cfg recentArtists 0 discoveries targetD [] [] gc0
  let r2 := selectFromPoolClaimWindow cfg recentArtists r1.1.length familiar targetF []
    r1.2.1 r1.2.2
  if (r1.1 ++ r2.1).length < count then
    let remaining := sortByScoreDesc
      (scored.filter (fun p => decide (p.1.video_id ∉ r2.2.1)))
    let r3 := selectFromPoolClaimWindow cfg recentArtists (r1.1 ++ r2.1).length
      remaining (count - (r1.1 ++ r2.1).length) [] r2.2.1 r2.2.2
    r1.1 ++ r2.1 ++ r3.1
  else r1.1 ++ r2.1

/-- `PlaylistAlgorithm._select_diverse_songs` (`algorithm.py:288-403`): the
admission passes followed by `random.shuffle`, the latter supplied as an
explicit `shuffle` parameter. -/
def selectDiverseSongs (cfg : AlgoConfig)
    (shuffle : List UserSong → List UserSong) (now : ℚ)
    (scored : List (UserSong × ℚ)) (recentSongs : List UserSong)
    (count : Nat) : List UserSong :=
  shuffle (selectAdmitted cfg now scored recentSongs count)

/-- `PlaylistAlgorithm.generate_queue` (`algorithm.py:49-92`): empty
candidate set short-circuits to an empty batch; otherwise score, select
diversely, and project the joined `Song` rows. -/
def generateQueue (cfg : AlgoConfig)
    (shuffle : List UserSong → List UserSong) (now : ℚ) (r : Nat → ℚ)
    (candidates recentSongs : List UserSong) (count : Nat) : List Song :=
  if candidates.isEmpty then []
  else
    (selectDiverseSongs cfg shuffle now (scoredCandidates now r candidates)
      recentSongs count).filterMap (fun us => us.song)

/-- Maximum of a list of positions, the `order_by(position.desc()).first()`
query of `update_queue` (`algorithm.py:442-448`): `none` when no row exists. -/
def maxPos : List ℤ → Option ℤ
  | [] => none
  | x :: xs =>
    match maxPos xs with
    | none => some x
    | some m => some (max x m)

/-- `PlaylistAlgorithm.update_queue` (`algorithm.py:423-464`): delete the
unplayed queue rows, start numbering at `max(position) + 1` over the
remaining rows (0 when none remain), append the batch in order.  Returns the
new entries and the new state. -/
def updateQueue (songs : List Song) (st : DBState) :
    List QueueEntry × DBState :=
  let remaining := st.queue.filter (fun e => e.played)
  let startPos : ℤ :=
    match maxPos (remaining.map (fun e => e.position)) with
    | none => 0
    | some m => m + 1
  let newEntries := songs.enum.map (fun p =>
    { video_id := p.2.video_id, position := startPos + p.1, played := false })
  (newEntries, { st with queue := remaining ++ newEntries })

/-- A sequence of batch persists: run `update_queue` for each batch in turn
and collect the positions of every entry ever inserted, in creation order. -/
def runBatches : DBState → List (List Song) → List ℤ × DBState
  | st, [] => ([], st)
  | st, b :: bs =>
    let r := updateQueue b st
    let rest := runBatches r.2 bs
    (r.1.map (fun e => e.position) ++ rest.1, rest.2)

/-- `generate_playlist` (`algorithm.py:581-597`): generate a batch and, only
when it is non-empty (Python `if songs:`), persist it via `update_queue`. -/
def generatePlaylist (cfg : AlgoConfig)
    (shuffle : List UserSong → List UserSong) (now : ℚ) (r : Nat → ℚ)
    (candidates recentSongs : List UserSong) (count : Nat) (st : DBState) :
    List Song × DBState :=
  let songs := generateQueue cfg shuffle now r candidates recentSongs count
  if songs.isEmpty then (songs, st) else (songs, (updateQueue songs st).2)

/-- Mark the first unplayed queue row with the given video id as played
(`algorithm.py:511-522`): `none` when no such row exists. -/
def advanceEntry (vid : String) : List QueueEntry → Option (List QueueEntry)
  | [] => none
  | e :: rest =>
    if e.video_id = vid ∧ e.played = false then
      some ({ e with played := true } :: rest)
    else (advanceEntry vid rest).map (fun r => e :: r)

/-- The affinity update of `mark_song_played` (`algorithm.py:523-532`): on the
first matching affinity row set `last_played := now` and increment
`play_count` (a missing count reads as 0); no matching row, no change. -/
def touchUserSong (now : ℚ) (vid : String) : List UserSong → List UserSong
  | [] => []
  | us :: rest =>
    if us.video_id = vid then
      { us with last_played := some now,
                play_count := some (us.play_count.getD 0 + 1) } :: rest
    else us :: touchUserSong now vid rest

/-- `PlaylistAlgorithm.mark_song_played` (`algorithm.py:501-534`): find an
unplayed queue row for the video id; if none, return `false` with the state
unchanged; otherwise mark it played, touch the affinity row, return `true`. -/
def markSongPlayed (now : ℚ) (vid : String) (st : DBState) : Bool × DBState :=
  match advanceEntry vid st.queue with
  | none => (false, st)
  | some q => (true, { queue := q, userSongs := touchUserSong now vid st.userSongs })

/-- The genre half of the diversity check, in its pre-admission reading: when
the window is non-empty, every genre tag of the candidate sits strictly below
`max_genre_ratio` of the window at the moment of admission. -/
def genreWindowOk (cfg : AlgoConfig) (c : UserSong) (gc : String → Nat)
    (w : Nat) : Prop :=
  0 < w → ∀ sg : Song, c.song = some sg → ∀ g ∈ sg.genres,
    (gc g : ℚ) / (w : ℚ) < cfg.maxGenreRatio

/-- A never-played, neutral-feedback candidate row over a catalog track. -/
def mkNeverPlayed (vid artist : String) (genres : List String) : UserSong :=
  { video_id := vid,
    song := some { video_id := vid, artist := artist, artist_id := none,
                   genres := genres },
    feedback := none, last_played := none, play_count := none }

/-- A previously played, neutral-feedback candidate row over a catalog track. -/
def mkPlayed (vid artist : String) (genres : List String) (lp : ℚ) : UserSong :=
  { video_id := vid,
    song := some { video_id := vid, artist := artist, artist_id := none,
                   genres := genres },
    feedback := none, last_played := some lp, play_count := some 1 }

/-- Recent-play window for the C1 run: five distinct artists, no genre tags. -/
def recentsC1 : List UserSong :=
  [mkPlayed "r1" "A1" [] 0, mkPlayed "r2" "A2" [] 0, mkPlayed "r3" "A3" [] 0,
   mkPlayed "r4" "A4" [] 0, mkPlayed "r5" "A5" [] 0]

/-- Candidate pool for the C1 run: two never-played tracks by artist `X`
followed by five never-played tracks by five further distinct artists. -/
def candsC1 : List UserSong :=
  [mkNeverPlayed "v1" "X" [], mkNeverPlayed "v2" "X" [],
   mkNeverPlayed "c3" "B1" [], mkNeverPlayed "c4" "B2" [],
   mkNeverPlayed "c5" "B3" [], mkNeverPlayed "c6" "B4" [],
   mkNeverPlayed "c7" "B5" []]

/-- Decreasing random multipliers 1.2, 1.1, 1.0, … so that candidate order is
already score order. -/
def randsDec : Nat → ℚ := fun i => ((12 - (i : ℤ) : ℤ) : ℚ) / 10

/-- The scored C1 candidate list at `now = 100`. -/
def scoredC1 : List (UserSong × ℚ) := scoredCandidates 100 randsDec candsC1

/-- Recent-play window for the C3 run: one rock play and one pop play. -/
def recentsC3 : List UserSong :=
  [mkPlayed "s1" "R1" ["rock"] 0, mkPlayed "s2" "R2" ["pop"] 0]

/-- Candidate pool for the C3 run: never-played jazz, rock and pop tracks by
three distinct artists. -/
def candsC3 : List UserSong :=
  [mkNeverPlayed "vA" "C1" ["jazz"], mkNeverPlayed "vB" "C2" ["rock"],
   mkNeverPlayed "vC" "C3" ["pop"]]

/-- The scored C3 candidate list at `now = 100`. -/
def scoredC3 : List (UserSong × ℚ) := scoredCandidates 100 randsDec candsC3

/-- A track last played exactly 30.5 days before `nowC5`. -/
def trackC5 : UserSong := mkPlayed "z" "Z" [] 0

/-- An instant 30.5 days after `trackC5`'s last play. -/
def nowC5 : ℚ := 30 * 86400 + 43200

/-- A catalog track used by the C6 and C10 runs. -/
def songA : Song :=
  { video_id := "a", artist := "aa", artist_id := none, genres := [] }

/-- A second catalog track used by the C6 run. -/
def songB : Song :=
  { video_id := "b", artist := "bb", artist_id := none, genres := [] }

/-- A disliked candidate row, for the C2 witness. -/
def dislikedCand : UserSong :=
  { video_id := "d1",
    song := some { video_id := "d1", artist := "DD", artist_id := none,
                   genres := [] },
    feedback := some "dislike", last_played := none, play_count := none }

section
attribute [local semireducible] Rat.add Rat.mul Rat.sub Rat.inv Rat.ofScientific

theorem mem_insertDesc {x y : UserSong × ℚ} {l : List (UserSong × ℚ)} :
    x ∈ insertDesc y l ↔ x = y ∨ x ∈ l := by
  induction l with
  | nil => simp [insertDesc]
  | cons z zs ih =>
    simp only [insertDesc]
    split
    · simp [List.mem_cons]
    · simp only [List.mem_cons, ih]
      tauto

theorem mem_sortByScoreDesc {x : UserSong × ℚ} {l : List (UserSong × ℚ)} :
    x ∈ sortByScoreDesc l ↔ x ∈ l := by
  induction l with
  | nil => simp [sortByScoreDesc]
  | cons z zs ih =>
    simp only [sortByScoreDesc, List.foldr_cons] at ih ⊢
    rw [mem_insertDesc, ih, List.mem_cons]

theorem maxPos_le {l : List ℤ} {m x : ℤ} (hm : maxPos l = some m) (hx : x ∈ l) :
    x ≤ m := by
  induction l generalizing m with
  | nil => cases hx
  | cons y ys ih =>
    simp only [maxPos] at hm
    rcases List.mem_cons.mp hx with rfl | hx'
    · cases h : maxPos ys with
      | none => rw [h] at hm; injection hm with hm'; omega
      | some m' =>
        rw [h] at hm; injection hm with hm'
        subst hm'; exact le_max_left _ _
    · cases h : maxPos ys with
      | none =>
        cases ys with
        | nil => cases hx'
        | cons z zs => simp only [maxPos] at h; cases hz : maxPos zs <;>
            rw [hz] at h <;> cases h
      | some m' =>
        rw [h] at hm; injection hm with hm'
        subst hm'
        exact le_trans (ih h hx') (le_max_right _ _)

theorem advanceEntry_eq_none {vid : String} {q : List QueueEntry}
    (h : ∀ e ∈ q, e.played = true) : advanceEntry vid q = none := by
  induction q with
  | nil => rfl
  | cons e rest ih =>
    have he : e.played = true := h e (List.mem_cons_self e rest)
    simp only [advanceEntry]
    rw [if_neg, ih]
    · rfl
    · exact fun x hx => h x (List.mem_cons_of_mem e hx)
    · intro hc
      rw [he] at hc
      exact absurd hc.2 (by simp)

end

section
attribute [local semireducible] Rat.add Rat.mul Rat.sub Rat.inv Rat.ofScientific

theorem gcAfter_append (gc : String → Nat) (l1 l2 : List UserSong) :
    gcAfter gc (l1 ++ l2) = gcAfter (gcAfter gc l1) l2 := by
  simp [gcAfter, List.foldl_append]

theorem selectFromPool_shape (cfg : AlgoConfig) (ra : List String) (outer : Nat)
    (pool : List (UserSong × ℚ)) :
    ∀ (target : Nat) (res : List UserSong) (vids : List String)
      (gc : String → Nat),
    ∃ t : List UserSong,
      (selectFromPool cfg ra outer pool target res vids gc).1 = res ++ t ∧
      (selectFromPool cfg ra outer pool target res vids gc).2.1 =
        (t.map (fun u => u.video_id)).reverse ++ vids ∧
      (∀ x ∈ t, x.video_id ∉ vids) ∧
      (t.map (fun u => u.video_id)).Nodup ∧
      (selectFromPool cfg ra outer pool target res vids gc).2.2 = gcAfter gc t ∧
      (∀ x ∈ t, x ∈ pool.map Prod.fst) ∧
      (∀ (l1 : List UserSong) (x : UserSong) (l2 : List UserSong),
        t = l1 ++ x :: l2 →
        applyDiversityConstraints cfg x
          (ra ++ (res ++ l1).filterMap (fun s => s.song.map artistKey))
          (gcAfter gc l1) (ra.length + outer) = true) := by
  induction pool with
  | nil =>
    intro target res vids gc
    refine ⟨[], ?_, ?_, ?_, ?_, ?_, ?_, ?_⟩ <;>
      simp [selectFromPool, gcAfter]
  | cons hd rest ih =>
    intro target res vids gc
    obtain ⟨c, sc⟩ := hd
    by_cases h1 : target ≤ res.length
    · refine ⟨[], ?_, ?_, ?_, ?_, ?_, ?_, ?_⟩ <;>
        simp [selectFromPool, h1, gcAfter]
    · by_cases h2 : c.video_id ∈ vids
      · obtain ⟨t, e1, e2, e3, e4, e5, e6, e7⟩ := ih target res vids gc
        refine ⟨t, ?_, ?_, e3, e4, ?_, ?_, e7⟩ <;>
          simp [selectFromPool, h1, h2, e1, e2, e5]
        intro x hx
        exact Or.inr (by simpa using e6 x hx)
      · by_cases h3 : applyDiversityConstraints cfg c
            (ra ++ res.filterMap (fun s => s.song.map artistKey)) gc
            (ra.length + outer) = true
        · obtain ⟨t, e1, e2, e3, e4, e5, e6, e7⟩ :=
            ih target (res ++ [c]) (c.video_id :: vids) (addCandGenres gc c)
          refine ⟨c :: t, ?_, ?_, ?_, ?_, ?_, ?_, ?_⟩
          · simp only [selectFromPool, if_neg h1, if_neg h2, h3, if_pos, e1]
            simp
          · simp only [selectFromPool, if_neg h1, if_neg h2, h3, if_pos, e2]
            simp
          · intro x hx
            rcases List.mem_cons.mp hx with rfl | hx'
            · exact h2
            · exact fun hv => e3 x hx' (List.mem_cons_of_mem _ hv)
          · rw [List.map_cons, List.nodup_cons]
            constructor
            · intro hc
              obtain ⟨u, hu, hv⟩ := List.mem_map.mp hc
              exact e3 u hu (hv ▸ List.mem_cons_self _ _)
            · exact e4
          · simp only [selectFromPool, if_neg h1, if_neg h2, h3, if_pos, e5]
            rfl
          · intro x hx
            rcases List.mem_cons.mp hx with rfl | hx'
            · simp
            · simp only [List.map_cons, List.mem_cons]
              exact Or.inr (e6 x hx')
          · intro l1 x l2 hx
            cases l1 with
            | nil =>
              rw [List.nil_append, List.cons_eq_cons] at hx
              obtain ⟨rfl, -⟩ := hx
              simpa [gcAfter] using h3
            | cons c' l1' =>
              rw [List.cons_append, List.cons_eq_cons] at hx
              obtain ⟨rfl, ht⟩ := hx
              have := e7 l1' x l2 ht
              simpa [List.append_assoc, gcAfter] using this
        · obtain ⟨t, e1, e2, e3, e4, e5, e6, e7⟩ := ih target res vids gc
          refine ⟨t, ?_, ?_, e3, e4, ?_, ?_, e7⟩ <;>
            simp [selectFromPool, h1, h2, h3, e1, e2, e5]
          intro x hx
          exact Or.inr (by simpa using e6 x hx)

theorem applyDiversityConstraints_genre {cfg : AlgoConfig} {c : UserSong}
    {arts : List String} {gc : String → Nat} {w : Nat}
    (h : applyDiversityConstraints cfg c arts gc w = true) :
    genreWindowOk cfg c gc w := by
  intro hw sg hsg g hg
  simp only [applyDiversityConstraints, hsg] at h
  rw [if_neg, if_pos hw] at h
  · rw [Bool.not_eq_true', List.any_eq_false] at h
    have := h g hg
    simp only [decide_eq_true_eq] at this
    exact not_le.mp this
  · intro hmem
    rw [if_pos hmem] at h
    cases h

theorem discoveryPool_sub {now : ℚ} {scored : List (UserSong × ℚ)} {x : UserSong}
    (hx : x ∈ (discoveryPool now scored).map Prod.fst) :
    x ∈ scored.map Prod.fst := by
  obtain ⟨p, hp, rfl⟩ := List.mem_map.mp hx
  refine List.mem_map_of_mem _ ?_
  have := mem_sortByScoreDesc.mp hp
  rw [List.partition_eq_filter_filter] at this
  exact List.mem_of_mem_filter this

theorem familiarPool_sub {now : ℚ} {scored : List (UserSong × ℚ)} {x : UserSong}
    (hx : x ∈ (familiarPool now scored).map Prod.fst) :
    x ∈ scored.map Prod.fst := by
  obtain ⟨p, hp, rfl⟩ := List.mem_map.mp hx
  refine List.mem_map_of_mem _ ?_
  have := mem_sortByScoreDesc.mp hp
  rw [List.partition_eq_filter_filter] at this
  exact List.mem_of_mem_filter this

theorem fillPool_sub {cfg : AlgoConfig} {now : ℚ} {scored : List (UserSong × ℚ)}
    {recents : List UserSong} {count : Nat} {x : UserSong}
    (hx : x ∈ (fillPool cfg now scored recents count).map Prod.fst) :
    x ∈ scored.map Prod.fst := by
  obtain ⟨p, hp, rfl⟩ := List.mem_map.mp hx
  refine List.mem_map_of_mem _ ?_
  have := mem_sortByScoreDesc.mp hp
  exact List.mem_of_mem_filter this

theorem passOne_parts (cfg : AlgoConfig) (now : ℚ)
    (scored : List (UserSong × ℚ)) (recents : List UserSong) (count : Nat) :
    (passOne cfg now scored recents count).2.1 =
      ((passOne cfg now scored recents count).1.map
        (fun u => u.video_id)).reverse ∧
    ((passOne cfg now scored recents count).1.map
      (fun u => u.video_id)).Nodup ∧
    (passOne cfg now scored recents count).2.2 =
      gcAfter (seedGenreCounts recents)
        (passOne cfg now scored recents count).1 ∧
    (∀ x ∈ (passOne cfg now scored recents count).1,
      x ∈ (discoveryPool now scored).map Prod.fst) ∧
    (∀ (l1 : List UserSong) (x : UserSong) (l2 : List UserSong),
      (passOne cfg now scored recents count).1 = l1 ++ x :: l2 →
      applyDiversityConstraints cfg x
        (recentArtistsOf recents ++
          l1.filterMap (fun s => s.song.map artistKey))
        (gcAfter (seedGenreCounts recents) l1)
        ((recentArtistsOf recents).length + 0) = true) := by
  obtain ⟨t, e1, e2, e3, e4, e5, e6, e7⟩ :=
    selectFromPool_shape cfg (recentArtistsOf recents) 0
      (discoveryPool now scored) (targetDiscoveries cfg count) [] []
      (seedGenreCounts recents)
  rw [List.nil_append] at e1
  simp only [List.append_nil] at e2
  simp only [List.nil_append] at e7
  simp only [passOne, e1]
  exact ⟨e2, e4, e5, e6, e7⟩

theorem passTwo_parts (cfg : AlgoConfig) (now : ℚ)
    (scored : List (UserSong × ℚ)) (recents : List UserSong) (count : Nat) :
    (∀ x ∈ (passTwo cfg now scored recents count).1,
      x.video_id ∉ (passOne cfg now scored recents count).1.map
        (fun u => u.video_id)) ∧
    ((passTwo cfg now scored recents count).1.map
      (fun u => u.video_id)).Nodup ∧
    (passTwo cfg now scored recents count).2.1 =
      ((passTwo cfg now scored recents count).1.map
        (fun u => u.video_id)).reverse ++
      ((passOne cfg now scored recents count).1.map
        (fun u => u.video_id)).reverse ∧
    (passTwo cfg now scored recents count).2.2 =
      gcAfter (seedGenreCounts recents)
        ((passOne cfg now scored recents count).1 ++
          (passTwo cfg now scored recents count).1) ∧
    (∀ x ∈ (passTwo cfg now scored recents count).1,
      x ∈ (familiarPool now scored).map Prod.fst) ∧
    (∀ (l1 : List UserSong) (x : UserSong) (l2 : List UserSong),
      (passTwo cfg now scored recents count).1 = l1 ++ x :: l2 →
      applyDiversityConstraints cfg x
        (recentArtistsOf recents ++
          l1.filterMap (fun s => s.song.map artistKey))
        (gcAfter (seedGenreCounts recents)
          ((passOne cfg now scored recents count).1 ++ l1))
        ((recentArtistsOf recents).length +
          (passOne cfg now scored recents count).1.length) = true) := by
  obtain ⟨p1v, p1nd, p1gc, p1sub, p1chk⟩ :=
    passOne_parts cfg now scored recents count
  obtain ⟨t, e1, e2, e3, e4, e5, e6, e7⟩ :=
    selectFromPool_shape cfg (recentArtistsOf recents)
      (passOne cfg now scored recents count).1.length
      (familiarPool now scored) (count - targetDiscoveries cfg count) []
      (passOne cfg now scored recents count).2.1
      (passOne cfg now scored recents count).2.2
  rw [List.nil_append] at e1
  simp only [List.nil_append] at e7
  simp only [passTwo, e1]
  refine ⟨?_, e4, ?_, ?_, e6, ?_⟩
  · intro x hx hv
    exact e3 x hx (by rw [p1v]; exact List.mem_reverse.mpr hv)
  · rw [e2, p1v]
  · rw [e5, p1gc, ← gcAfter_append]
  · intro l1 x l2 h
    have := e7 l1 x l2 h
    rwa [p1gc, ← gcAfter_append] at this

set_option maxHeartbeats 1000000 in
theorem passThree_parts (cfg : AlgoConfig) (now : ℚ)
    (scored : List (UserSong × ℚ)) (recents : List UserSong) (count : Nat) :
    (∀ x ∈ (passThree cfg now scored recents count).1,
      x.video_id ∉ (passOne cfg now scored recents count).1.map
        (fun u => u.video_id) ∧
      x.video_id ∉ (passTwo cfg now scored recents count).1.map
        (fun u => u.video_id)) ∧
    ((passThree cfg now scored recents count).1.map
      (fun u => u.video_id)).Nodup ∧
    (∀ x ∈ (passThree cfg now scored recents count).1,
      x ∈ (fillPool cfg now scored recents count).map Prod.fst) ∧
    (∀ (l1 : List UserSong) (x : UserSong) (l2 : List UserSong),
      (passThree cfg now scored recents count).1 = l1 ++ x :: l2 →
      applyDiversityConstraints cfg x
        (recentArtistsOf recents ++
          l1.filterMap (fun s => s.song.map artistKey))
        (gcAfter (seedGenreCounts recents)
          ((passOne cfg now scored recents count).1 ++
            (passTwo cfg now scored recents count).1 ++ l1))
        ((recentArtistsOf recents).length +
          ((passOne cfg now scored recents count).1 ++
            (passTwo cfg now scored recents count).1).length) = true) := by
  obtain ⟨p2disj, p2nd, p2v, p2gc, p2sub, p2chk⟩ :=
    passTwo_parts cfg now scored recents count
  obtain ⟨t, e1, e2, e3, e4, e5, e6, e7⟩ :=
    selectFromPool_shape cfg (recentArtistsOf recents)
      ((passOne cfg now scored recents count).1 ++
        (passTwo cfg now scored recents count).1).length
      (fillPool cfg now scored recents count)
      (count - ((passOne cfg now scored recents count).1 ++
        (passTwo cfg now scored recents count).1).length) []
      (passTwo cfg now scored recents count).2.1
      (passTwo cfg now scored recents count).2.2
  rw [List.nil_append] at e1
  simp only [List.nil_append] at e7
  simp only [passThree, e1]
  refine ⟨?_, e4, e6, ?_⟩
  · intro x hx
    constructor
    · intro hv
      refine e3 x hx ?_
      rw [p2v]
      exact List.mem_append.mpr (Or.inr (List.mem_reverse.mpr hv))
    · intro hv
      refine e3 x hx ?_
      rw [p2v]
      exact List.mem_append.mpr (Or.inl (List.mem_reverse.mpr hv))
  · intro l1 x l2 h
    have h5 := e7 l1 x l2 h
    rw [p2gc] at h5
    rw [← gcAfter_append] at h5
    exact h5

theorem selectAdmittedParts_eq (cfg : AlgoConfig) (now : ℚ)
    (scored : List (UserSong × ℚ)) (recents : List UserSong) (count : Nat) :
    selectAdmittedParts cfg now scored recents count =
      ((passOne cfg now scored recents count).1,
       (passTwo cfg now scored recents count).1,
       if ((passOne cfg now scored recents count).1 ++
           (passTwo cfg now scored recents count).1).length < count
       then (passThree cfg now scored recents count).1 else []) := by
  unfold selectAdmittedParts
  split <;> rfl

theorem selectAdmitted_eq (cfg : AlgoConfig) (now : ℚ)
    (scored : List (UserSong × ℚ)) (recents : List UserSong) (count : Nat) :
    selectAdmitted cfg now scored recents count =
      (passOne cfg now scored recents count).1 ++
      (passTwo cfg now scored recents count).1 ++
      (if ((passOne cfg now scored recents count).1 ++
           (passTwo cfg now scored recents count).1).length < count
       then (passThree cfg now scored recents count).1 else []) := by
  rw [selectAdmitted, selectAdmittedParts_eq]

theorem selectAdmitted_sub {cfg : AlgoConfig} {now : ℚ}
    {scored : List (UserSong × ℚ)} {recents : List UserSong} {count : Nat}
    {x : UserSong} (hx : x ∈ selectAdmitted cfg now scored recents count) :
    x ∈ scored.map Prod.fst := by
  rw [selectAdmitted_eq] at hx
  rcases List.mem_append.mp hx with hx' | hx'
  · rcases List.mem_append.mp hx' with h1 | h2
    · exact discoveryPool_sub
        ((passOne_parts cfg now scored recents count).2.2.2.1 x h1)
    · exact familiarPool_sub
        ((passTwo_parts cfg now scored recents count).2.2.2.2.1 x h2)
  · split at hx'
    · exact fillPool_sub
        ((passThree_parts cfg now scored recents count).2.2.1 x hx')
    · cases hx'

theorem selectAdmitted_nodup (cfg : AlgoConfig) (now : ℚ)
    (scored : List (UserSong × ℚ)) (recents : List UserSong) (count : Nat) :
    ((selectAdmitted cfg now scored recents count).map
      (fun u => u.video_id)).Nodup := by
  obtain ⟨-, nd1, -, -, -⟩ := passOne_parts cfg now scored recents count
  obtain ⟨dj2, nd2, -, -, -, -⟩ := passTwo_parts cfg now scored recents count
  rw [selectAdmitted_eq, List.map_append, List.map_append]
  have h12 : (((passOne cfg now scored recents count).1.map
      (fun u => u.video_id)) ++
      ((passTwo cfg now scored recents count).1.map
        (fun u => u.video_id))).Nodup := by
    rw [List.nodup_append]
    refine ⟨nd1, nd2, ?_⟩
    intro a ha hb
    obtain ⟨u, hu, rfl⟩ := List.mem_map.mp hb
    exact dj2 u hu ha
  split
  · obtain ⟨dj3, nd3, -, -⟩ := passThree_parts cfg now scored recents count
    rw [List.nodup_append]
    refine ⟨h12, nd3, ?_⟩
    intro a ha hb
    obtain ⟨u, hu, rfl⟩ := List.mem_map.mp hb
    rcases List.mem_append.mp ha with h1 | h2
    · exact (dj3 u hu).1 h1
    · exact (dj3 u hu).2 h2
  · simpa using h12

theorem maxPos_isSome {l : List ℤ} (h : l ≠ []) : ∃ m, maxPos l = some m := by
  cases l with
  | nil => exact absurd rfl h
  | cons x xs =>
    cases h' : maxPos xs with
    | none => exact ⟨x, by simp [maxPos, h']⟩
    | some m => exact ⟨max x m, by simp [maxPos, h']⟩

theorem newEntries_pairwise (songs : List Song) (sp : ℤ) :
    ((songs.enum.map (fun p =>
      ({ video_id := p.2.video_id, position := sp + p.1, played := false } :
        QueueEntry))).map (fun e => e.position)).Pairwise (· < ·) := by
  rw [List.map_map, List.pairwise_iff_getElem]
  intro i j hi hj hij
  simp only [List.length_map, List.enum_length] at hi hj
  simp only [List.getElem_map, List.enum, List.getElem_enumFrom,
    Function.comp_apply]
  show sp + ((0 + i : Nat) : ℤ) < sp + ((0 + j : Nat) : ℤ)
  omega

/-- C8: with an empty candidate pool, queue generation returns the empty
batch, for every shuffle, clock, random draw, recent window and count; the
embedding is a total function, so no error is raised. -/
theorem c8_empty_pool_empty_batch (cfg : AlgoConfig)
    (shuffle : List UserSong → List UserSong) (now : ℚ) (r : Nat → ℚ)
    (recentSongs : List UserSong) (count : Nat) :
    generateQueue cfg shuffle now r [] recentSongs count = [] := by
  simp [generateQueue]

/-- C10: when queue generation produces an empty batch, `generate_playlist`
skips the persistence step entirely and the stored state — including any
unplayed queue entries — is returned unchanged. -/
theorem c10_empty_batch_state_frame (cfg : AlgoConfig)
    (shuffle : List UserSong → List UserSong) (now : ℚ) (r : Nat → ℚ)
    (candidates recentSongs : List UserSong) (count : Nat) (st : DBState)
    (h : generateQueue cfg shuffle now r candidates recentSongs count = []) :
    generatePlaylist cfg shuffle now r candidates recentSongs count st =
      ([], st) := by
  simp [generatePlaylist, h]

/-- Witness for C10: an empty candidate pool yields an empty batch and the
pre-existing unplayed queue entry survives untouched. -/
theorem c10_empty_batch_state_frame_witness :
    generatePlaylist defaultConfig id 0 (fun _ => 1) [] [] 20
      ⟨[{ video_id := "a", position := 0, played := false }], []⟩ =
      ([], ⟨[{ video_id := "a", position := 0, played := false }], []⟩) :=
  c10_empty_batch_state_frame defaultConfig id 0 (fun _ => 1) [] [] 20 _
    (by simp [generateQueue])

/-- C7: advancing a listener whose unplayed queue is empty returns `false`
and leaves the whole state — queue rows, affinity play counts and
last-played stamps — unchanged. -/
theorem c7_advance_empty_noop (now : ℚ) (vid : String) (st : DBState)
    (h : ∀ e ∈ st.queue, e.played = true) :
    markSongPlayed now vid st = (false, st) := by
  rw [markSongPlayed, advanceEntry_eq_none h]

/-- Witness for C7: a queue holding only a played entry is untouched. -/
theorem c7_advance_empty_noop_witness :
    markSongPlayed 5 "a"
      ⟨[{ video_id := "a", position := 0, played := true }], []⟩ =
      (false, ⟨[{ video_id := "a", position := 0, played := true }], []⟩) :=
  c7_advance_empty_noop 5 "a" _ (by
    intro e he
    rw [List.mem_singleton] at he
    subst he
    rfl)

/-- C6 counterexample: starting from an empty queue, persisting a batch and
then regenerating deletes the unplayed rows, finds no remaining row, and
restarts numbering at 0 — the position 0 is inserted twice, so the sequence
of positions ever inserted is neither strictly increasing nor free of
reuse. -/
theorem c6_position_reuse_counterexample :
    (runBatches ⟨[], []⟩ [[songA], [songB]]).1 = [0, 0] ∧
    ¬ ((runBatches ⟨[], []⟩ [[songA], [songB]]).1.Pairwise (· < ·)) ∧
    ¬ (runBatches ⟨[], []⟩ [[songA], [songB]]).1.Nodup := by
  refine ⟨by decide, by decide, by decide⟩

/-- C6 amended: within one persisted batch the positions are strictly
increasing in creation order, and every new position strictly exceeds the
position of every entry that survives the unplayed-deletion — so positions
of live entries are never reused; only when the deletion empties the queue
does numbering restart at 0, allowing reuse of deleted positions. -/
theorem c6_positions_amended (songs : List Song) (st : DBState) :
    ((updateQueue songs st).1.map (fun e => e.position)).Pairwise (· < ·) ∧
    (∀ e ∈ st.queue.filter (fun e => e.played),
      ∀ e' ∈ (updateQueue songs st).1, e.position < e'.position) := by
  constructor
  · simp only [updateQueue]
    exact newEntries_pairwise songs _
  · intro e he e' he'
    simp only [updateQueue] at he'
    obtain ⟨m, hm⟩ := maxPos_isSome
      (List.ne_nil_of_mem
        (List.mem_map_of_mem (fun e => e.position) he))
    rw [hm] at he'
    obtain ⟨p, hp, rfl⟩ := List.mem_map.mp he'
    have hle := maxPos_le hm (List.mem_map_of_mem (fun e => e.position) he)
    simp only []
    omega

/-- C1, the code at the failing input: with five distinct artists in the
recent window (≥ `min_artist_gap = 5`), a candidate pool of six distinct
artists, and the two top-scored candidates both by artist `X`, the
admission-order batch opens with the two `X` tracks adjacent — the in-batch
artist gap is not enforced because the batch-accepted artists are appended
after the recent history instead of being prepended most-recent-first. -/
theorem c1_artist_spacing_failure :
    (selectAdmitted defaultConfig 100 scoredC1 recentsC1 8).map
      (fun u => u.song.map artistKey) =
      [some "X", some "X", some "B1", some "B2", some "B3",
       some "B4", some "B5"] ∧
    (candsC1.filterMap (fun u => u.song.map artistKey)).dedup.length = 6 := by
  refine ⟨by decide, by decide⟩

/-- C4: for a non-disliked candidate the score factors as
`base * penalty * randomness`, with the penalty a function of the day count
alone (independent of like, rediscovery and play-count bonuses); the penalty
is exactly 0.1 below one day, `max 0.1 (1 - 1/d)` for `1 ≤ d < 7`, and 1
from seven days up or when the track was never played. -/
theorem c4_recency_floor (s : UserSong) (now rq : ℚ)
    (h : s.feedback ≠ some "dislike") :
    calculateScore s now rq =
      baseScore s (daysSincePlayed? now s) *
        recencyPenalty (daysSincePlayed? now s) * rq ∧
    (∀ d : ℚ, daysSincePlayed? now s = some d →
      (d < 1 → recencyPenalty (daysSincePlayed? now s) = 1/10) ∧
      (1 ≤ d → d < 7 →
        recencyPenalty (daysSincePlayed? now s) = max (1/10) (1 - 1/d)) ∧
      (7 ≤ d → recencyPenalty (daysSincePlayed? now s) = 1)) ∧
    (daysSincePlayed? now s = none →
      recencyPenalty (daysSincePlayed? now s) = 1) := by
  refine ⟨?_, ?_, ?_⟩
  · rw [calculateScore, if_neg h]
  · intro d hd
    rw [hd]
    refine ⟨?_, ?_, ?_⟩
    · intro h1
      simp only [recencyPenalty, if_pos (by linarith : d < 7), if_pos h1]
      norm_num
    · intro hge hlt
      simp only [recencyPenalty, if_pos hlt,
        if_neg (by linarith : ¬ d < 1)]
      norm_num
    · intro hge
      simp only [recencyPenalty, if_neg (by linarith : ¬ d < 7)]
  · intro hn
    rw [hn]
    rfl

/-- Witness for C4: a track played half a day ago factors through a penalty
of exactly 1/10. -/
theorem c4_recency_floor_witness :
    calculateScore (mkPlayed "w" "W" [] 0) 43200 1 =
      baseScore (mkPlayed "w" "W" [] 0)
        (daysSincePlayed? 43200 (mkPlayed "w" "W" [] 0)) *
      recencyPenalty (daysSincePlayed? 43200 (mkPlayed "w" "W" [] 0)) * 1 ∧
    recencyPenalty (daysSincePlayed? 43200 (mkPlayed "w" "W" [] 0)) = 1/10 :=
  ⟨(c4_recency_floor (mkPlayed "w" "W" [] 0) 43200 1 (by decide)).1,
   ((c4_recency_floor (mkPlayed "w" "W" [] 0) 43200 1 (by decide)).2.1
     (1/2) (by decide)).1 (by norm_num)⟩

/-- C5 counterexample: a track last played 30.5 days ago receives the
scoring rediscovery bonus (`days_since_played > 30` on fractional days:
score 1 × 1.3 × penalty 1 × multiplier 1 = 1.3), yet the pool partition —
which uses the integer `timedelta.days > 30` — classifies it as familiar:
the whole batch run puts it in the familiar pass, not the discovery pass.
The two predicates are therefore not the same. -/
theorem c5_predicate_counterexample :
    scoringRediscovery nowC5 trackC5 = true ∧
    isDiscoveryCand nowC5 trackC5 = false ∧
    calculateScore trackC5 nowC5 1 = 13/10 ∧
    selectAdmittedParts defaultConfig nowC5 [(trackC5, 13/10)] [] 8 =
      ([], [trackC5], []) := by
  refine ⟨by decide, by decide, by decide, by decide⟩

/-- C5 amended: never-played candidates are discoveries and get the bonus;
for a played candidate the partition tests `⌊days⌋ > 30` (Python
`timedelta.days`) while the bonus tests fractional `days > 30`, so
discovery-pool membership implies the bonus but not conversely — they
disagree exactly when the fractional day count lies in (30, 31). -/
theorem c5_predicates_amended (now : ℚ) (s : UserSong) :
    (s.last_played = none →
      isDiscoveryCand now s = true ∧ scoringRediscovery now s = true) ∧
    (∀ lp : ℚ, s.last_played = some lp →
      ((isDiscoveryCand now s = true ↔ 30 < timedeltaDays (now - lp)) ∧
       (scoringRediscovery now s = true ↔ 30 < (now - lp) / 86400) ∧
       (isDiscoveryCand now s = true → scoringRediscovery now s = true))) := by
  constructor
  · intro h
    constructor
    · simp [isDiscoveryCand, h]
    · simp [scoringRediscovery, scoringRediscoveryD, daysSincePlayed?, h]
  · intro lp h
    refine ⟨?_, ?_, ?_⟩
    · simp [isDiscoveryCand, h]
    · simp [scoringRediscovery, scoringRediscoveryD, daysSincePlayed?, h]
    · intro hd
      simp only [isDiscoveryCand, h, timedeltaDays, decide_eq_true_eq] at hd
      simp only [scoringRediscovery, scoringRediscoveryD, daysSincePlayed?, h,
        Option.map_some']
      rw [decide_eq_true_eq]
      have h31 : (31 : ℤ) ≤ ⌊(now - lp) / 86400⌋ := hd
      have hle := Int.le_floor.mp h31
      push_cast at hle
      linarith

/-- Witness for C5 amended: at exactly 31 days both the partition and the
bonus predicate hold. -/
theorem c5_predicates_amended_witness :
    isDiscoveryCand (31 * 86400) (mkPlayed "w5" "W" [] 0) = true ∧
    scoringRediscovery (31 * 86400) (mkPlayed "w5" "W" [] 0) = true :=
  ⟨((c5_predicates_amended (31 * 86400) (mkPlayed "w5" "W" [] 0)).2 0
      rfl).1.mpr (by decide),
   ((c5_predicates_amended (31 * 86400) (mkPlayed "w5" "W" [] 0)).2 0
      rfl).2.2
    (((c5_predicates_amended (31 * 86400) (mkPlayed "w5" "W" [] 0)).2 0
      rfl).1.mpr (by decide))⟩

/-- C2: a disliked candidate scores exactly 0 for every random multiplier,
and — because only strictly positive scores survive the scoring filter and
selection only draws from the scored list — it never appears in a generated
batch, for any shuffle realisation. -/
theorem c2_dislike_exclusion (cfg : AlgoConfig)
    (shuffle : List UserSong → List UserSong)
    (hshuffle : ∀ l, (shuffle l).Perm l) (now : ℚ) (r : Nat → ℚ) (rq : ℚ)
    (candidates recentSongs : List UserSong) (count : Nat) (us : UserSong)
    (hdis : us.feedback = some "dislike") :
    calculateScore us now rq = 0 ∧
    us ∉ selectDiverseSongs cfg shuffle now
      (scoredCandidates now r candidates) recentSongs count := by
  constructor
  · rw [calculateScore, if_pos hdis]
  · intro hmem
    rw [selectDiverseSongs] at hmem
    have hmem' := (hshuffle
      (selectAdmitted cfg now (scoredCandidates now r candidates)
        recentSongs count)).mem_iff.mp hmem
    have hsc := selectAdmitted_sub hmem'
    obtain ⟨p, hp, hfst⟩ := List.mem_map.mp hsc
    rw [scoredCandidates, List.mem_filter] at hp
    obtain ⟨hp1, hp2⟩ := hp
    obtain ⟨q, hq, hpe⟩ := List.mem_map.mp hp1
    subst hpe
    simp only [decide_eq_true_eq] at hp2
    simp only at hfst
    rw [hfst] at hp2
    rw [calculateScore, if_pos hdis] at hp2
    exact absurd hp2 (lt_irrefl 0)

/-- Witness for C2: a concrete disliked candidate scores 0 and is absent
from the generated batch. -/
theorem c2_dislike_exclusion_witness :
    calculateScore dislikedCand 0 1 = 0 ∧
    dislikedCand ∉ selectDiverseSongs defaultConfig id 0
      (scoredCandidates 0 (fun _ => 1) [dislikedCand]) [] 20 :=
  c2_dislike_exclusion defaultConfig id (fun l => List.Perm.refl l) 0
    (fun _ => 1) 1 [dislikedCand] [] 20 dislikedCand rfl

/-- C9: the video ids of a generated batch are pairwise distinct: admission
records every admitted id in the shared `selected_video_ids` set and skips
any candidate already in it, across all three passes, and the final shuffle
only permutes. -/
theorem c9_no_duplicate_tracks (cfg : AlgoConfig)
    (shuffle : List UserSong → List UserSong)
    (hshuffle : ∀ l, (shuffle l).Perm l) (now : ℚ)
    (scored : List (UserSong × ℚ)) (recentSongs : List UserSong)
    (count : Nat) :
    ((selectDiverseSongs cfg shuffle now scored recentSongs count).map
      (fun u => u.video_id)).Nodup := by
  rw [selectDiverseSongs]
  exact ((hshuffle (selectAdmitted cfg now scored recentSongs count)).map
    (fun u => u.video_id)).nodup_iff.mpr
    (selectAdmitted_nodup cfg now scored recentSongs count)

/-- Witness for C9: the C1 run's batch of seven tracks has no duplicate
video id. -/
theorem c9_no_duplicate_tracks_witness :
    ((selectDiverseSongs defaultConfig id 100 scoredC1 recentsC1 8).map
      (fun u => u.video_id)).Nodup :=
  c9_no_duplicate_tracks defaultConfig id (fun l => List.Perm.refl l) 100
    scoredC1 recentsC1 8

/-- C3 counterexample: with a recent window of one rock and one pop play and
never-played jazz/rock/pop candidates, the code (fixed per-pass
`window_total = len(recent_artists) + len(selected)`) rejects the rock
candidate (1/2 ≥ 0.4) and admits only the jazz track, while the claim's
growing window (recent plus every track admitted so far) would accept it
(1/3 < 0.4): the two procedures produce different batches. -/
theorem c3_window_total_counterexample :
    (selectAdmitted defaultConfig 100 scoredC3 recentsC3 2).map
      (fun u => u.video_id) = ["vA"] ∧
    (selectAdmittedClaimWindow defaultConfig 100 scoredC3 recentsC3 2).map
      (fun u => u.video_id) = ["vA", "vB"] := by
  refine ⟨by decide, by decide⟩

/-- C3 amended: the genre check is evaluated before admission, against the
histogram seeded from the recent window and incremented for every track
admitted so far (across the passes, in selection order), but with a
denominator that is fixed for the duration of each pass: the recent-window
size for the discovery pass, plus the prior passes' admission counts for
the familiar and fill passes. -/
theorem c3_genre_check_preadmission (cfg : AlgoConfig) (now : ℚ)
    (scored : List (UserSong × ℚ)) (recentSongs : List UserSong)
    (count : Nat) :
    (∀ (l1 : List UserSong) (x : UserSong) (l2 : List UserSong),
      (selectAdmittedParts cfg now scored recentSongs count).1 =
        l1 ++ x :: l2 →
      genreWindowOk cfg x (gcAfter (seedGenreCounts recentSongs) l1)
        (recentArtistsOf recentSongs).length) ∧
    (∀ (l1 : List UserSong) (x : UserSong) (l2 : List UserSong),
      (selectAdmittedParts cfg now scored recentSongs count).2.1 =
        l1 ++ x :: l2 →
      genreWindowOk cfg x
        (gcAfter (seedGenreCounts recentSongs)
          ((selectAdmittedParts cfg now scored recentSongs count).1 ++ l1))
        ((recentArtistsOf recentSongs).length +
          (selectAdmittedParts cfg now scored recentSongs count).1.length)) ∧
    (∀ (l1 : List UserSong) (x : UserSong) (l2 : List UserSong),
      (selectAdmittedParts cfg now scored recentSongs count).2.2 =
        l1 ++ x :: l2 →
      genreWindowOk cfg x
        (gcAfter (seedGenreCounts recentSongs)
          ((selectAdmittedParts cfg now scored recentSongs count).1 ++
            (selectAdmittedParts cfg now scored recentSongs count).2.1 ++ l1))
        ((recentArtistsOf recentSongs).length +
          ((selectAdmittedParts cfg now scored recentSongs count).1 ++
            (selectAdmittedParts cfg now scored recentSongs count).2.1).length)) := by
  rw [selectAdmittedParts_eq]
  refine ⟨?_, ?_, ?_⟩
  · intro l1 x l2 h
    exact applyDiversityConstraints_genre
      ((passOne_parts cfg now scored recentSongs count).2.2.2.2 l1 x l2 h)
  · intro l1 x l2 h
    exact applyDiversityConstraints_genre
      ((passTwo_parts cfg now scored recentSongs count).2.2.2.2.2 l1 x l2 h)
  · intro l1 x l2 h
    simp only at h
    split at h
    · exact applyDiversityConstraints_genre
        ((passThree_parts cfg now scored recentSongs count).2.2.2 l1 x l2 h)
    · exact absurd h (by simp)

/-- Witness for C3 amended: in the C3 run the single admitted track `vA`
passed the pre-admission genre check against the seeded histogram and the
window of the two recent plays. -/
theorem c3_genre_check_preadmission_witness :
    genreWindowOk defaultConfig (mkNeverPlayed "vA" "C1" ["jazz"])
      (gcAfter (seedGenreCounts recentsC3) [])
      ((recentArtistsOf recentsC3).length +
        ((selectAdmittedParts defaultConfig 100 scoredC3 recentsC3 2).1 ++
          (selectAdmittedParts defaultConfig 100 scoredC3 recentsC3 2).2.1).length) :=
  (c3_genre_check_preadmission defaultConfig 100 scoredC3 recentsC3 2).2.2
    [] (mkNeverPlayed "vA" "C1" ["jazz"]) [] (by decide)

/-- Witness for C6 amended: persisting one new track over a queue whose only
entry (position 0) is played yields strictly increasing batch positions, and
the surviving entry's position lies strictly below the new entry's. -/
theorem c6_positions_amended_witness :
    ((updateQueue [songB]
      ⟨[{ video_id := "a", position := 0, played := true }], []⟩).1.map
        (fun e => e.position)).Pairwise (· < ·) ∧
    ({ video_id := "a", position := 0, played := true } : QueueEntry).position <
      ({ video_id := "b", position := 1, played := false } : QueueEntry).position :=
  ⟨(c6_positions_amended [songB]
      ⟨[{ video_id := "a", position := 0, played := true }], []⟩).1,
   (c6_positions_amended [songB]
      ⟨[{ video_id := "a", position := 0, played := true }], []⟩).2
     { video_id := "a", position := 0, played := true } (by decide)
     { video_id := "b", position := 1, played := false } (by decide)⟩

end
